import Mathlib

/-!
Shallow embedding of the kikstshop reporting core.

Sources embedded here:
* `src/src/types/db.ts` — the record types (`StockItem`, `Sale`, `Expense`,
  `DashboardMetrics`).
* `src/src/app/dashboard/page.tsx` — `loadAll` (snapshot loader), `metrics`
  (dashboard aggregation), `chartData` (30-day daily series), `filteredSales` /
  `filteredExpenses` (inclusive calendar-day range filter), `exportExcel` /
  `exportPdf` (ledger export summary), `handleSubmitModal` (capital entry),
  `transactions` (merged transaction feed).
* `src/unnamed/part_002` — the SQL stored procedure `create_sale`.

Modelling conventions: `numeric` database columns and JS numbers holding money
or quantities are modelled as exact integers (`Int`); timestamps are seconds
since the epoch (`Nat`), so the calendar day of a timestamp is `ts / 86400`
and the start of calendar day `d` is `d * 86400`.  Date-string formatting
(`format(date, "yyyy-MM-dd")`) is injective on calendar days, so map keys of
the chart bucketizer are modelled by the day number itself.
-/

namespace Kikstshop

/-- `StockItem` from `src/src/types/db.ts`. -/
structure StockItem where
  id : Nat
  name : String
  price : Int
  stock : Int
  image_url : Option String
  created_at : Nat
  deriving Repr, DecidableEq

/-- `Sale` from `src/src/types/db.ts`.  `status` is `"lunas"` (paid) or
`"belum_bayar"` (unpaid), as enforced by the SQL CHECK constraint. -/
structure Sale where
  id : Nat
  sold_at : Nat
  stock_item_id : Option Nat
  item_name : String
  unit_price : Int
  qty : Int
  total_price : Int
  buyer_name : Option String
  status : String
  deriving Repr, DecidableEq

/-- `Expense` from `src/src/types/db.ts`. -/
structure Expense where
  id : Nat
  bought_at : Nat
  description : Option String
  total_cost : Int
  deriving Repr, DecidableEq

/-- `DashboardMetrics` from `src/src/types/db.ts`. -/
structure DashboardMetrics where
  totalSales : Nat
  totalRevenue : Int
  totalExpenses : Int
  profit : Int
  piutang : Int
  deriving Repr, DecidableEq

/-- The `metrics` memo of `src/src/app/dashboard/page.tsx`, lines 264-278:
reduces over the full sales and expenses snapshots. -/
def metrics (sales : List Sale) (expenses : List Expense) : DashboardMetrics :=
  let totalSales := sales.length
  let totalRevenue := sales.foldl (fun acc item => acc + item.total_price) 0
  let totalExpenses := expenses.foldl (fun acc item => acc + item.total_cost) 0
  let piutang :=
    (sales.filter (fun s => decide (s.status = "belum_bayar"))).foldl
      (fun acc item => acc + item.total_price) 0
  { totalSales := totalSales
    totalRevenue := totalRevenue
    totalExpenses := totalExpenses
    profit := totalRevenue - totalExpenses
    piutang := piutang }

/-- A left fold accumulating `f` over a list is the sum of the mapped list. -/
theorem foldl_add_map_sum {α : Type} (f : α → Int) (l : List α) (a : Int) :
    l.foldl (fun acc x => acc + f x) a = a + (l.map f).sum := by
  induction l generalizing a with
  | nil => simp
  | cons x t ih => simp [List.foldl_cons, ih]; ring

/-- C1: the metrics aggregation computes `totalRevenue` as the exact sum of
`total_price` over all sales, `totalExpenses` as the exact sum of `total_cost`
over all expenses, `profit` as their (possibly negative, unfloored)
difference, and `piutang` as the sum of `total_price` over exactly the
`"belum_bayar"` (unpaid) sales; on two empty inputs all five metrics are 0. -/
theorem metrics_exact_sums (sales : List Sale) (expenses : List Expense) :
    (metrics sales expenses).totalRevenue = (sales.map (·.total_price)).sum ∧
    (metrics sales expenses).totalExpenses = (expenses.map (·.total_cost)).sum ∧
    (metrics sales expenses).profit =
      (sales.map (·.total_price)).sum - (expenses.map (·.total_cost)).sum ∧
    (metrics sales expenses).piutang =
      ((sales.filter (fun s => decide (s.status = "belum_bayar"))).map
        (·.total_price)).sum ∧
    metrics [] [] =
      { totalSales := 0, totalRevenue := 0, totalExpenses := 0,
        profit := 0, piutang := 0 } := by
  refine ⟨?_, ?_, ?_, ?_, ?_⟩ <;>
    simp [metrics, foldl_add_map_sum]

/-- Helper: the revenue reduce of `metrics` is the sum over all sales. -/
theorem metrics_revenue_eq (sales : List Sale) (expenses : List Expense) :
    (metrics sales expenses).totalRevenue = (sales.map (·.total_price)).sum := by
  simp [metrics, foldl_add_map_sum]

/-- Sum of `total_price` over the unpaid sales of a list, the quantity the
`piutang` reduce of `metrics` computes. -/
theorem metrics_piutang_eq (sales : List Sale) (expenses : List Expense) :
    (metrics sales expenses).piutang =
      ((sales.filter (fun s => decide (s.status = "belum_bayar"))).map
        (·.total_price)).sum := by
  simp [metrics, foldl_add_map_sum]

/-- C6: flipping one `"lunas"` sale's status to `"belum_bayar"` (touching no
other field of the sale and no other record) raises `piutang` by exactly that
sale's `total_price` and leaves `totalRevenue` unchanged. -/
theorem metrics_status_flip (pre post : List Sale) (t : Sale)
    (expenses : List Expense) (h : t.status = "lunas") :
    (metrics (pre ++ { t with status := "belum_bayar" } :: post) expenses).piutang
        = (metrics (pre ++ t :: post) expenses).piutang + t.total_price ∧
    (metrics (pre ++ { t with status := "belum_bayar" } :: post) expenses).totalRevenue
        = (metrics (pre ++ t :: post) expenses).totalRevenue := by
  constructor
  · rw [metrics_piutang_eq, metrics_piutang_eq]
    simp [List.filter_append, h]
    ring
  · rw [metrics_revenue_eq, metrics_revenue_eq]
    simp

/-- A concrete paid sale of 50000, used in closed instances. -/
def paidSale : Sale :=
  { id := 1, sold_at := 100, stock_item_id := none, item_name := "A",
    unit_price := 50000, qty := 1, total_price := 50000, buyer_name := none,
    status := "lunas" }

/-- Closed instance of `metrics_status_flip` at a concrete snapshot. -/
theorem metrics_status_flip_check :
    paidSale.status = "lunas" ∧
    (metrics [{ paidSale with status := "belum_bayar" }] []).piutang
      = (metrics [paidSale] []).piutang + 50000 :=
  ⟨rfl, (metrics_status_flip [] [] paidSale [] rfl).1⟩

/-- The `handleSubmitModal` handler of `src/src/app/dashboard/page.tsx`,
lines 447-494, reduced to its data effect: validate the entered amount, then
insert one sale row with the capital-injection sentinel name.  `newId` stands
for the store-assigned row id (the insert payload carries no id), `modalStockId`
for the result of `getSystemModalId` (`none` when the sentinel stock item could
not be ensured). -/
def handleSubmitModal (amount : Int) (modalDate : Nat)
    (modalStockId : Option Nat) (newId : Nat) : Except String Sale :=
  if amount ≤ 0 then Except.error "Jumlah modal harus lebih dari 0."
  else
    match modalStockId with
    | none => Except.error "Gagal inisialisasi system item. Cek koneksi Supabase."
    | some sid =>
        Except.ok
          { id := newId
            sold_at := modalDate
            stock_item_id := some sid
            item_name := "Modal / Dana Awal"
            unit_price := amount
            qty := 1
            total_price := amount
            buyer_name := none
            status := "lunas" }

/-- C10: every sale row the capital-entry operation manages to insert carries
item name `"Modal / Dana Awal"`, `qty = 1`, `unit_price = total_price =` the
entered amount, and status `"lunas"`; consequently inserting it anywhere into
a snapshot never changes the `piutang` metric, which sums only `"belum_bayar"`
sales. -/
theorem handleSubmitModal_row (amount : Int) (modalDate : Nat)
    (modalStockId : Option Nat) (newId : Nat) (r : Sale)
    (h : handleSubmitModal amount modalDate modalStockId newId = Except.ok r) :
    r.item_name = "Modal / Dana Awal" ∧ r.qty = 1 ∧ r.unit_price = amount ∧
    r.total_price = amount ∧ r.status = "lunas" ∧
    ∀ (pre post : List Sale) (expenses : List Expense),
      (metrics (pre ++ r :: post) expenses).piutang
        = (metrics (pre ++ post) expenses).piutang := by
  unfold handleSubmitModal at h
  split at h
  · exact absurd h (by simp)
  · match modalStockId, h with
    | some sid, h =>
      simp only [Except.ok.injEq] at h
      subst h
      refine ⟨rfl, rfl, rfl, rfl, rfl, ?_⟩
      intro pre post expenses
      rw [metrics_piutang_eq, metrics_piutang_eq]
      simp [List.filter_append]

/-- The concrete capital-injection row a 100000 capital entry inserts. -/
def capitalSale : Sale :=
  { id := 7, sold_at := 500, stock_item_id := some 3,
    item_name := "Modal / Dana Awal", unit_price := 100000, qty := 1,
    total_price := 100000, buyer_name := none, status := "lunas" }

/-- Closed instance of `handleSubmitModal_row`: a capital entry of 100000. -/
theorem handleSubmitModal_row_check :
    capitalSale.qty = 1 ∧
    (metrics [capitalSale] []).piutang = (metrics [] []).piutang := by
  have h := handleSubmitModal_row 100000 500 (some 3) 7 capitalSale (by rfl)
  exact ⟨h.2.1, h.2.2.2.2.2 [] [] []⟩

/-- Header summary computed identically by `exportExcel` (lines 745-768) and
`exportPdf` (lines 806-817) of `src/src/app/dashboard/page.tsx` over the
range-filtered sales and expenses: `totalRevenue` is the "Penjualan" line,
`totalModal` the "Total Modal" line, `pendapatan` the "Pendapatan Bersih"
(net income) line, `totalTransactions` the "Total Penjualan" count. -/
structure ExportSummary where
  totalTransactions : Nat
  totalRevenue : Int
  totalModal : Int
  totalExpense : Int
  pendapatan : Int
  deriving Repr, DecidableEq

/-- The summary block of `exportExcel` / `exportPdf`, translated from
`src/src/app/dashboard/page.tsx` lines 745-752 (and 806-816). -/
def exportSummary (filteredSales : List Sale) (filteredExpenses : List Expense) :
    ExportSummary :=
  let modalSales := filteredSales.filter (fun s => decide (s.item_name = "Modal / Dana Awal"))
  let actualSales := filteredSales.filter (fun s => decide (s.item_name ≠ "Modal / Dana Awal"))
  let totalRevenue := actualSales.foldl (fun a s => a + s.total_price) 0
  let totalModal := modalSales.foldl (fun a s => a + s.total_price) 0
  let totalExpense := filteredExpenses.foldl (fun a e => a + e.total_cost) 0
  { totalTransactions := actualSales.length
    totalRevenue := totalRevenue
    totalModal := totalModal
    totalExpense := totalExpense
    pendapatan := totalRevenue - totalExpense }

/-- One row of the exported table, as pushed per sale by `exportExcel`
(lines 770-780). -/
structure ExportRow where
  sold_at : Nat
  item_name : String
  qty : Int
  unit_price : Int
  total_price : Int
  buyer : String
  statusLabel : String
  deriving Repr, DecidableEq

/-- The row `exportExcel` pushes for one sale (lines 770-780); `exportPdf`
builds the same row data. -/
def exportRow (item : Sale) : ExportRow :=
  { sold_at := item.sold_at
    item_name := item.item_name
    qty := item.qty
    unit_price := item.unit_price
    total_price := item.total_price
    buyer := item.buyer_name.getD "-"
    statusLabel := if item.status = "lunas" then "Lunas" else "Belum Bayar" }

/-- The full table body of the export: one row per range-filtered sale,
capital rows included (`filteredSales.forEach` is not re-filtered). -/
def exportRows (filteredSales : List Sale) : List ExportRow :=
  filteredSales.map exportRow

/-- Helper: the "Penjualan" line of the export sums the non-capital sales. -/
theorem exportSummary_revenue_eq (fs : List Sale) (fe : List Expense) :
    (exportSummary fs fe).totalRevenue =
      ((fs.filter (fun s => decide (s.item_name ≠ "Modal / Dana Awal"))).map
        (·.total_price)).sum := by
  simp [exportSummary, foldl_add_map_sum]

/-- C5: in the ledger export, the "Penjualan" line sums `total_price` over
exactly the non-capital sales, the "Total Modal" line over exactly the
capital-injection sales (item name `"Modal / Dana Awal"`), and "Pendapatan
Bersih" is the capital-excluding revenue minus total expenses; hence a
capital sale prepended to the range adds its total to the modal line and
changes neither the revenue line nor net income. -/
theorem exportSummary_lines (fs : List Sale) (fe : List Expense) :
    (exportSummary fs fe).totalRevenue =
      ((fs.filter (fun s => decide (s.item_name ≠ "Modal / Dana Awal"))).map
        (·.total_price)).sum ∧
    (exportSummary fs fe).totalModal =
      ((fs.filter (fun s => decide (s.item_name = "Modal / Dana Awal"))).map
        (·.total_price)).sum ∧
    (exportSummary fs fe).pendapatan =
      (exportSummary fs fe).totalRevenue - (fe.map (·.total_cost)).sum ∧
    ∀ m : Sale, m.item_name = "Modal / Dana Awal" →
      (exportSummary (m :: fs) fe).totalModal
          = (exportSummary fs fe).totalModal + m.total_price ∧
      (exportSummary (m :: fs) fe).totalRevenue
          = (exportSummary fs fe).totalRevenue ∧
      (exportSummary (m :: fs) fe).pendapatan
          = (exportSummary fs fe).pendapatan := by
  refine ⟨by simp [exportSummary, foldl_add_map_sum],
          by simp [exportSummary, foldl_add_map_sum],
          by simp [exportSummary, foldl_add_map_sum], ?_⟩
  intro m hm
  refine ⟨?_, ?_, ?_⟩ <;> simp [exportSummary, foldl_add_map_sum, hm]
  ring

/-- Closed instance of `exportSummary_lines`: a capital sale of 100000 feeds
only the "Total Modal" line. -/
theorem exportSummary_lines_check :
    capitalSale.item_name = "Modal / Dana Awal" ∧
    (exportSummary [capitalSale, paidSale] []).totalModal
        = (exportSummary [paidSale] []).totalModal + 100000 ∧
    (exportSummary [capitalSale, paidSale] []).totalRevenue
        = (exportSummary [paidSale] []).totalRevenue ∧
    (exportSummary [capitalSale, paidSale] []).pendapatan
        = (exportSummary [paidSale] []).pendapatan :=
  ⟨rfl, ((exportSummary_lines [paidSale] []).2.2.2 capitalSale rfl).1,
    ((exportSummary_lines [paidSale] []).2.2.2 capitalSale rfl).2.1,
    ((exportSummary_lines [paidSale] []).2.2.2 capitalSale rfl).2.2⟩

/-- The property C4 asserts of the dashboard metrics, instantiated at a
snapshot holding one capital-injection sale of 100000 and one ordinary sale
of 50000: it claims the revenue metric excludes the capital total. -/
def c4ClaimedRevenue : Prop :=
  (metrics [capitalSale, paidSale] []).totalRevenue =
    (([capitalSale, paidSale].filter
      (fun s => decide (s.item_name ≠ "Modal / Dana Awal"))).map
        (·.total_price)).sum

/-- C4 fails on the code: the dashboard `metrics.totalRevenue` reduce runs
over every sale, so the 100000 capital injection is counted and the metric is
150000, not the capital-excluding 50000. -/
theorem metrics_revenue_counts_capital : ¬ c4ClaimedRevenue := by
  unfold c4ClaimedRevenue
  decide

/-- C4 amended: the dashboard revenue metric includes capital-injection
totals (it sums over all sales); the capital-vs-revenue separation lives in
the ledger export, whose "Penjualan" line excludes capital rows while those
rows all remain in the exported table body. -/
theorem capital_separation_in_export (sales : List Sale) (expenses : List Expense) :
    (metrics sales expenses).totalRevenue = (sales.map (·.total_price)).sum ∧
    (exportSummary sales expenses).totalRevenue =
      ((sales.filter (fun s => decide (s.item_name ≠ "Modal / Dana Awal"))).map
        (·.total_price)).sum ∧
    ∀ s ∈ sales, exportRow s ∈ exportRows sales := by
  refine ⟨metrics_revenue_eq sales expenses, exportSummary_revenue_eq sales expenses, ?_⟩
  intro s hs
  exact List.mem_map_of_mem exportRow hs

/-- Closed instance of `capital_separation_in_export`: the capital row stays
in the exported table. -/
theorem capital_separation_in_export_check :
    capitalSale ∈ [capitalSale, paidSale] ∧
    exportRow capitalSale ∈ exportRows [capitalSale, paidSale] :=
  ⟨by simp,
    (capital_separation_in_export [capitalSale, paidSale] []).2.2 capitalSale (by simp)⟩

/-- The `filteredSales` memo of `src/src/app/dashboard/page.tsx`, lines
319-326: keep the sales whose `sold_at` lies between `fromDate` at 00:00:00
and `toDate` at 23:59:59, both inclusive.  `fromDate` / `toDate` are calendar
day numbers; `d * 86400` is 00:00:00 of day `d` and `d * 86400 + 86399` is
its 23:59:59. -/
def filteredSales (fromDate toDate : Nat) (sales : List Sale) : List Sale :=
  sales.filter (fun sale =>
    decide (fromDate * 86400 ≤ sale.sold_at ∧ sale.sold_at ≤ toDate * 86400 + 86399))

/-- The `filteredExpenses` memo (lines 328-335), same closed interval applied
to `bought_at`. -/
def filteredExpenses (fromDate toDate : Nat) (expenses : List Expense) : List Expense :=
  expenses.filter (fun expense =>
    decide (fromDate * 86400 ≤ expense.bought_at ∧
      expense.bought_at ≤ toDate * 86400 + 86399))

/-- C7: the range filter keeps exactly the records whose timestamp lies in
the closed interval from 00:00:00 of `fromDate` to 23:59:59 of `toDate`
(so both boundary timestamps are kept and 23:59:59 of the day before
`fromDate` is not), and an inverted range (`toDate < fromDate`) yields the
empty list rather than an error. -/
theorem range_filter_closed_interval (sales : List Sale) (expenses : List Expense)
    (fromDate toDate : Nat) :
    (∀ s, s ∈ filteredSales fromDate toDate sales ↔
      s ∈ sales ∧ fromDate * 86400 ≤ s.sold_at ∧ s.sold_at ≤ toDate * 86400 + 86399) ∧
    (∀ e, e ∈ filteredExpenses fromDate toDate expenses ↔
      e ∈ expenses ∧ fromDate * 86400 ≤ e.bought_at ∧
        e.bought_at ≤ toDate * 86400 + 86399) ∧
    (toDate < fromDate →
      filteredSales fromDate toDate sales = [] ∧
      filteredExpenses fromDate toDate expenses = []) := by
  refine ⟨?_, ?_, ?_⟩
  · intro s
    simp [filteredSales, List.mem_filter, and_assoc]
  · intro e
    simp [filteredExpenses, List.mem_filter, and_assoc]
  · intro hlt
    constructor
    · apply List.filter_eq_nil_iff.mpr
      intro s _
      simp only [decide_eq_true_eq, not_and]
      intro hlow
      omega
    · apply List.filter_eq_nil_iff.mpr
      intro e _
      simp only [decide_eq_true_eq, not_and]
      intro hlow
      omega

/-- Closed instance of `range_filter_closed_interval`: both day boundaries
are kept, 23:59:59 of the previous day is dropped, and an inverted range is
empty.  Days 10 and 11: 00:00:00 of day 10 is 864000, 23:59:59 of day 11 is
1036799, 23:59:59 of day 9 is 863999. -/
theorem range_filter_closed_interval_check :
    ({ paidSale with sold_at := 864000 } ∈
      filteredSales 10 11 [{ paidSale with sold_at := 864000 }]) ∧
    ({ paidSale with sold_at := 1036799 } ∈
      filteredSales 10 11 [{ paidSale with sold_at := 1036799 }]) ∧
    ({ paidSale with sold_at := 863999 } ∉
      filteredSales 10 11 [{ paidSale with sold_at := 863999 }]) ∧
    filteredSales 11 10 [paidSale] = [] := by
  refine ⟨?_, ?_, ?_, ?_⟩
  · exact ((range_filter_closed_interval
      [{ paidSale with sold_at := 864000 }] [] 10 11).1 _).mpr
      ⟨by simp, by norm_num, by norm_num⟩
  · exact ((range_filter_closed_interval
      [{ paidSale with sold_at := 1036799 }] [] 10 11).1 _).mpr
      ⟨by simp, by norm_num, by norm_num⟩
  · intro hmem
    have h := ((range_filter_closed_interval
      [{ paidSale with sold_at := 863999 }] [] 10 11).1 _).mp hmem
    simp at h
  · exact ((range_filter_closed_interval [paidSale] [] 11 10).2.2 (by norm_num)).1

/-- Result shape of one supabase batch request as consumed by `loadAll`:
a data payload (possibly absent) and an error (possibly absent). -/
structure FetchRes (α : Type) where
  data : Option (List α)
  error : Option String
  deriving Repr

/-- A raw stock row as returned by the store, before numeric coercion:
`price` and `stock` may be null/malformed (modelled as absent). -/
structure RawStock where
  id : Nat
  name : String
  price : Option Int
  stock : Option Int
  image_url : Option String
  created_at : Nat
  deriving Repr, DecidableEq

/-- A raw sale row before numeric coercion. -/
structure RawSale where
  id : Nat
  sold_at : Nat
  stock_item_id : Option Nat
  item_name : String
  unit_price : Option Int
  qty : Option Int
  total_price : Option Int
  buyer_name : Option String
  status : String
  deriving Repr, DecidableEq

/-- A raw expense row before numeric coercion. -/
structure RawExpense where
  id : Nat
  bought_at : Nat
  description : Option String
  total_cost : Option Int
  deriving Repr, DecidableEq

/-- Modelled from the spec: `toNumber` lives in the missing `src/lib/format.ts`;
per §4.1 it coerces a possibly null or malformed numeric field to a number and
"coercion failure yields 0, never a thrown error". -/
def toNumber (v : Option Int) : Int := v.getD 0

/-- Numeric coercion of one stock row (`loadAll`, lines 216-221). -/
def parseStock (r : RawStock) : StockItem :=
  { id := r.id, name := r.name, price := toNumber r.price,
    stock := toNumber r.stock, image_url := r.image_url,
    created_at := r.created_at }

/-- Numeric coercion of one sale row (`loadAll`, lines 224-229). -/
def parseSale (r : RawSale) : Sale :=
  { id := r.id, sold_at := r.sold_at, stock_item_id := r.stock_item_id,
    item_name := r.item_name, unit_price := toNumber r.unit_price,
    qty := toNumber r.qty, total_price := toNumber r.total_price,
    buyer_name := r.buyer_name, status := r.status }

/-- Numeric coercion of one expense row (`loadAll`, lines 231-234). -/
def parseExpense (r : RawExpense) : Expense :=
  { id := r.id, bought_at := r.bought_at, description := r.description,
    total_cost := toNumber r.total_cost }

/-- The locally held dashboard state that `loadAll` reads and writes. -/
structure LocalState where
  stockItems : List StockItem
  sales : List Sale
  expenses : List Expense
  errMsg : Option String
  loading : Bool

/-- The `loadAll` callback of `src/src/app/dashboard/page.tsx`, lines
187-240, applied to the three already-awaited request results: clear the
error, and either surface the first request error (checked stock, then sales,
then expenses) leaving all three collections untouched, or store the parsed
collections (dropping the `SYSTEM_MODAL_DONOTDELETE` sentinel from the stock
list only). -/
def loadAll (st : LocalState) (stockRes : FetchRes RawStock)
    (salesRes : FetchRes RawSale) (expensesRes : FetchRes RawExpense) :
    LocalState :=
  let st := { st with errMsg := none }
  if stockRes.error.isSome || salesRes.error.isSome || expensesRes.error.isSome then
    { st with
      errMsg := some (((stockRes.error.orElse fun _ => salesRes.error).orElse
        fun _ => expensesRes.error).getD "Failed loading data")
      loading := false }
  else
    { st with
      stockItems := ((stockRes.data.getD []).map parseStock).filter
        (fun item => decide (item.name ≠ "SYSTEM_MODAL_DONOTDELETE"))
      sales := (salesRes.data.getD []).map parseSale
      expenses := (expensesRes.data.getD []).map parseExpense
      loading := false }

/-- C9: when any of the three snapshot requests fails, `loadAll` surfaces the
first error message in the order stock, sales, expenses, and leaves all three
locally held collections exactly as they were — no partial result is stored. -/
theorem loadAll_all_or_nothing (st : LocalState) (stockRes : FetchRes RawStock)
    (salesRes : FetchRes RawSale) (expensesRes : FetchRes RawExpense) :
    (∀ m, stockRes.error = some m →
      (loadAll st stockRes salesRes expensesRes).errMsg = some m) ∧
    (stockRes.error = none → ∀ m, salesRes.error = some m →
      (loadAll st stockRes salesRes expensesRes).errMsg = some m) ∧
    (stockRes.error = none → salesRes.error = none →
      ∀ m, expensesRes.error = some m →
        (loadAll st stockRes salesRes expensesRes).errMsg = some m) ∧
    ((stockRes.error.isSome ∨ salesRes.error.isSome ∨ expensesRes.error.isSome) →
      (loadAll st stockRes salesRes expensesRes).stockItems = st.stockItems ∧
      (loadAll st stockRes salesRes expensesRes).sales = st.sales ∧
      (loadAll st stockRes salesRes expensesRes).expenses = st.expenses) := by
  refine ⟨?_, ?_, ?_, ?_⟩
  · intro m hm
    simp [loadAll, hm, Option.orElse]
  · intro hs m hm
    simp [loadAll, hs, hm, Option.orElse]
  · intro hs hsl m hm
    simp [loadAll, hs, hsl, hm, Option.orElse]
  · intro herr
    have : (stockRes.error.isSome || salesRes.error.isSome ||
        expensesRes.error.isSome) = true := by
      rcases herr with h | h | h <;> simp [h]
    simp [loadAll, this]

/-- Closed instance of `loadAll_all_or_nothing`: a failing sales request (with
the stock request fine) keeps the previous collections and surfaces the sales
message. -/
theorem loadAll_all_or_nothing_check :
    (loadAll ⟨[], [paidSale], [], none, false⟩ ⟨some [], none⟩
        ⟨none, some "boom"⟩ ⟨some [], none⟩).errMsg = some "boom" ∧
    (loadAll ⟨[], [paidSale], [], none, false⟩ ⟨some [], none⟩
        ⟨none, some "boom"⟩ ⟨some [], none⟩).sales = [paidSale] := by
  refine ⟨?_, ?_⟩
  · exact (loadAll_all_or_nothing ⟨[], [paidSale], [], none, false⟩ ⟨some [], none⟩
      ⟨none, some "boom"⟩ ⟨some [], none⟩).2.1 rfl "boom" rfl
  · exact ((loadAll_all_or_nothing ⟨[], [paidSale], [], none, false⟩ ⟨some [], none⟩
      ⟨none, some "boom"⟩ ⟨some [], none⟩).2.2.2 (Or.inr (Or.inl rfl))).2.1

/-- The two tables touched by the `create_sale` stored procedure. -/
structure DB where
  stock_items : List StockItem
  sales : List Sale
  deriving Repr, DecidableEq

/-- SQL `nullif(trim(p_buyer_name), '')` from the procedure's INSERT. -/
def nullifTrimmed (b : Option String) : Option String :=
  match b with
  | none => none
  | some s => if s.trim = "" then none else some s.trim

/-- The stored procedure `public.create_sale` from `src/unnamed/part_002`,
lines 12-77.  The procedure runs inside one transaction: an exception aborts
it with no effect, which the embedding renders as `Except.error` carrying the
untouched caller state; `newId` stands for the store-assigned id of the
inserted row. -/
def create_sale (db : DB) (newId : Nat) (p_stock_item_id : Nat) (p_qty : Int)
    (p_buyer_name : Option String) (p_sold_at : Nat) (p_status : Option String) :
    Except String (DB × Sale) :=
  if p_qty ≤ 0 then Except.error "qty harus lebih dari 0"
  else
    match db.stock_items.find? (fun i => decide (i.id = p_stock_item_id)) with
    | none => Except.error "item tidak ditemukan"
    | some item_row =>
      if item_row.stock < p_qty then Except.error "stok tidak cukup"
      else
        let total := item_row.price * p_qty
        let inserted : Sale :=
          { id := newId
            sold_at := p_sold_at
            stock_item_id := some item_row.id
            item_name := item_row.name
            unit_price := item_row.price
            qty := p_qty
            total_price := total
            buyer_name := nullifTrimmed p_buyer_name
            status := p_status.getD "lunas" }
        Except.ok
          ({ stock_items := db.stock_items.map (fun i =>
              if i.id = p_stock_item_id then { i with stock := i.stock - p_qty } else i)
             sales := db.sales ++ [inserted] }, inserted)

/-- The stock quantity a caller reads for item `id` after a call. -/
def stockOf (db : DB) (id : Nat) : Int :=
  ((db.stock_items.find? (fun i => decide (i.id = id))).map (·.stock)).getD 0

/-- The one-item database of the C2 scenario: price 10000, stock 5. -/
def scenarioItem : StockItem :=
  { id := 1, name := "Item", price := 10000, stock := 5,
    image_url := none, created_at := 0 }

def scenarioDB : DB :=
  { stock_items := [scenarioItem]
    sales := [] }

/-- The sale row the first scenario call inserts. -/
def scenarioSale : Sale :=
  { id := 101, sold_at := 1000, stock_item_id := some 1, item_name := "Item",
    unit_price := 10000, qty := 3, total_price := 30000, buyer_name := none,
    status := "lunas" }

/-- The database after the first scenario call: stock 2, one sale row. -/
def scenarioDB1 : DB :=
  { stock_items := [{ scenarioItem with stock := 2 }]
    sales := [scenarioSale] }

/-- C2: `create_sale` fails with a distinct message for each of the three
precondition violations — non-positive quantity, unknown item, insufficient
stock — in each case producing no new state at all; on success it returns the
state with exactly that item's stock decremented by `qty` and one sale row
appended whose name and unit price are snapshotted from the item and whose
total is `price * qty`.  The concrete scenario: from stock 5 at price 10000,
selling qty 3 leaves stock 2 with sale total 30000, and selling qty 3 again
fails with the insufficient-stock message, leaving stock 2. -/
theorem create_sale_contract :
    (∀ db newId id qty buyer t st, qty ≤ 0 →
      create_sale db newId id qty buyer t st =
        Except.error "qty harus lebih dari 0") ∧
    (∀ db newId id qty buyer t st, 0 < qty →
      db.stock_items.find? (fun i => decide (i.id = id)) = none →
      create_sale db newId id qty buyer t st =
        Except.error "item tidak ditemukan") ∧
    (∀ db newId id qty buyer t st item, 0 < qty →
      db.stock_items.find? (fun i => decide (i.id = id)) = some item →
      item.stock < qty →
      create_sale db newId id qty buyer t st =
        Except.error "stok tidak cukup") ∧
    ("qty harus lebih dari 0" ≠ "item tidak ditemukan" ∧
     "qty harus lebih dari 0" ≠ "stok tidak cukup" ∧
     "item tidak ditemukan" ≠ "stok tidak cukup") ∧
    (∀ db newId id qty buyer t st item db' s, 0 < qty →
      db.stock_items.find? (fun i => decide (i.id = id)) = some item →
      ¬ item.stock < qty →
      create_sale db newId id qty buyer t st = Except.ok (db', s) →
      s.item_name = item.name ∧ s.unit_price = item.price ∧ s.qty = qty ∧
      s.total_price = item.price * qty ∧
      db'.sales = db.sales ++ [s] ∧
      db'.stock_items = db.stock_items.map (fun i =>
        if i.id = id then { i with stock := i.stock - qty } else i)) ∧
    (create_sale scenarioDB 101 1 3 none 1000 none =
        Except.ok (scenarioDB1, scenarioSale) ∧
      scenarioSale.total_price = 30000 ∧
      stockOf scenarioDB1 1 = 2 ∧
      create_sale scenarioDB1 102 1 3 none 2000 none =
        Except.error "stok tidak cukup") := by
  refine ⟨?_, ?_, ?_, ⟨by decide, by decide, by decide⟩, ?_, ?_⟩
  · intro db newId id qty buyer t st h
    simp [create_sale, h]
  · intro db newId id qty buyer t st hq hfind
    simp [create_sale, hfind, Int.not_le.mpr hq]
  · intro db newId id qty buyer t st item hq hfind hstock
    simp [create_sale, hfind, Int.not_le.mpr hq, hstock]
  · intro db newId id qty buyer t st item db' s hq hfind hstock hok
    rw [create_sale] at hok
    rw [if_neg (Int.not_le.mpr hq), hfind] at hok
    simp only [if_neg hstock, Except.ok.injEq, Prod.mk.injEq] at hok
    rcases hok with ⟨hdb, hs⟩
    subst hdb
    subst hs
    exact ⟨rfl, rfl, rfl, rfl, rfl, rfl⟩
  · exact ⟨rfl, rfl, by decide, rfl⟩

/-- Closed instance of `create_sale_contract`'s error branch at a concrete
call: quantity 0 is rejected with the quantity message. -/
theorem create_sale_contract_check :
    (0 : Int) ≤ 0 ∧
    create_sale scenarioDB 103 1 0 none 1000 none =
      Except.error "qty harus lebih dari 0" :=
  ⟨le_refl 0,
    create_sale_contract.1 scenarioDB 103 1 0 none 1000 none (le_refl 0)⟩

/-- One entry of the merged transaction feed (`transactions` memo of
`src/src/app/dashboard/page.tsx`, lines 2283-2313). -/
structure Txn where
  tag : String
  id : String
  numericId : Nat
  date : Nat
  name : String
  qty : Option Int
  amount : Int
  unitPrice : Option Int
  detail : Option String
  status : Option String
  stockItemId : Option Nat
  deriving Repr, DecidableEq

/-- The sale-typed entry of the merge (lines 2285-2297). -/
def saleTxn (s : Sale) : Txn :=
  { tag := "sale", id := "sale-" ++ toString s.id, numericId := s.id,
    date := s.sold_at, name := s.item_name, qty := some s.qty,
    amount := s.total_price, unitPrice := some s.unit_price,
    detail := s.buyer_name, status := some s.status,
    stockItemId := s.stock_item_id }

/-- The expense-typed entry of the merge (lines 2298-2310). -/
def expenseTxn (e : Expense) : Txn :=
  { tag := "expense", id := "expense-" ++ toString e.id, numericId := e.id,
    date := e.bought_at, name := e.description.getD "Pengeluaran", qty := none,
    amount := e.total_cost, unitPrice := none, detail := none, status := none,
    stockItemId := none }

/-- Descending-by-date comparison of the JS comparator
`(a, b) => new Date(b.date).getTime() - new Date(a.date).getTime()`:
`a` may stay before `b` exactly when `b.date ≤ a.date`. -/
def txnLe (a b : Txn) : Bool := decide (b.date ≤ a.date)

/-- The `transactions` memo (lines 2283-2313): sale entries first, then
expense entries, sorted by the descending-date comparator.
`Array.prototype.sort` is stable (ES2019), which `List.mergeSort` models. -/
def transactions (sales : List Sale) (expenses : List Expense) : List Txn :=
  (sales.map saleTxn ++ expenses.map expenseTxn).mergeSort txnLe

/-- C8: the merged feed is a permutation of the sale entries plus the expense
entries, sorted non-increasing by date, and a sale and an expense with the
same timestamp appear sale first (the sale entries are inserted before the
expense entries and the sort is stable). -/
theorem transactions_sorted_stable (sales : List Sale) (expenses : List Expense) :
    List.Pairwise (fun a b : Txn => b.date ≤ a.date) (transactions sales expenses) ∧
    (transactions sales expenses).Perm
      (sales.map saleTxn ++ expenses.map expenseTxn) ∧
    ∀ s ∈ sales, ∀ e ∈ expenses, s.sold_at = e.bought_at →
      [saleTxn s, expenseTxn e].Sublist (transactions sales expenses) := by
  have htrans : ∀ a b c : Txn, txnLe a b → txnLe b c → txnLe a c := by
    intro a b c hab hbc
    simp only [txnLe, decide_eq_true_eq] at *
    omega
  have htotal : ∀ a b : Txn, txnLe a b || txnLe b a := by
    intro a b
    simp only [txnLe]
    by_cases h : b.date ≤ a.date
    · simp [h]
    · simp [Nat.le_of_lt (Nat.lt_of_not_le h)]
  refine ⟨?_, List.mergeSort_perm _ _, ?_⟩
  · have h := List.sorted_mergeSort htrans htotal
      (sales.map saleTxn ++ expenses.map expenseTxn)
    exact h.imp (fun hab => by
      simpa [txnLe, decide_eq_true_eq] using hab)
  · intro s hs e he hdate
    apply List.sublist_mergeSort htrans htotal
    · refine List.pairwise_cons.mpr ⟨?_, List.pairwise_singleton _ _⟩
      intro t ht
      rw [List.mem_singleton] at ht
      subst ht
      show txnLe (saleTxn s) (expenseTxn e)
      simp [txnLe, saleTxn, expenseTxn, hdate]
    · exact List.Sublist.append
        (List.singleton_sublist.mpr (List.mem_map_of_mem saleTxn hs))
        (List.singleton_sublist.mpr (List.mem_map_of_mem expenseTxn he))

/-- A concrete expense dated like `paidSale`, for closed instances. -/
def sameTimeExpense : Expense :=
  { id := 9, bought_at := 100, description := some "Plastik", total_cost := 7000 }

/-- Closed instance of `transactions_sorted_stable`: with one sale and one
expense at the same timestamp, the sale entry precedes the expense entry. -/
theorem transactions_sorted_stable_check :
    paidSale.sold_at = sameTimeExpense.bought_at ∧
    [saleTxn paidSale, expenseTxn sameTimeExpense].Sublist
      (transactions [paidSale] [sameTimeExpense]) :=
  ⟨rfl, (transactions_sorted_stable [paidSale] [sameTimeExpense]).2.2 paidSale
    (by simp) sameTimeExpense (by simp) rfl⟩

/-- Insertion-ordered map update, the JS `Map.prototype.set`: overwrite in
place when the key is present, append otherwise. -/
def mapSet : List (Nat × Int) → Nat → Int → List (Nat × Int)
  | [], k, v => [(k, v)]
  | (k', v') :: rest, k, v =>
    if k' = k then (k, v) :: rest else (k', v') :: mapSet rest k v

/-- The zero-filled 30-day bucket initialization of `chartData`
(`src/src/app/dashboard/page.tsx`, lines 282-287): for `i = 0..29`, set the
key for calendar day `today - 29 + i` to 0 in an initially empty
insertion-ordered map.  Day-label formatting is injective on days, so keys
are day numbers. -/
def initBuckets (today : Nat) : List (Nat × Int) :=
  (List.range 30).foldl (fun m i => mapSet m (today - 29 + i) 0) []

/-- The per-sale accumulation step of `chartData` (lines 289-294): skip the
sale when it is dated before `startOfDay(subDays(today, 29))`, else add its
`total_price` to the bucket of its calendar day (`dailyMap.get(key) ?? 0`). -/
def addSale (today : Nat) (m : List (Nat × Int)) (sale : Sale) :
    List (Nat × Int) :=
  if sale.sold_at < (today - 29) * 86400 then m
  else
    mapSet m (sale.sold_at / 86400)
      ((List.lookup (sale.sold_at / 86400) m).getD 0 + sale.total_price)

/-- The `chartData` memo (lines 280-300) up to day-label formatting: the
insertion-ordered day/amount entries after folding every sale into the
30 zero-filled trailing-day buckets. -/
def chartData (today : Nat) (sales : List Sale) : List (Nat × Int) :=
  sales.foldl (addSale today) (initBuckets today)

/-- Looking up the key just set returns the value just set. -/
theorem lookup_mapSet_self (m : List (Nat × Int)) (k : Nat) (v : Int) :
    List.lookup k (mapSet m k v) = some v := by
  induction m with
  | nil => simp [mapSet]
  | cons p t ih =>
    rcases p with ⟨k', v'⟩
    by_cases h : k' = k
    · simp [mapSet, h]
    · have hbe : (k == k') = false := by
        simpa using Ne.symm h
      simp [mapSet, h, List.lookup_cons, hbe, ih]

/-- Setting one key leaves every other key's lookup unchanged. -/
theorem lookup_mapSet_ne (m : List (Nat × Int)) (k : Nat) (v : Int) (d : Nat)
    (h : d ≠ k) :
    List.lookup d (mapSet m k v) = List.lookup d m := by
  have hbe : (d == k) = false := by
    simpa using h
  induction m with
  | nil => simp [mapSet, List.lookup_cons, hbe]
  | cons p t ih =>
    rcases p with ⟨k', v'⟩
    by_cases h' : k' = k
    · subst h'
      simp [mapSet, List.lookup_cons, hbe]
    · simp [mapSet, h', List.lookup_cons, ih]

/-- A key's lookup succeeds exactly when the key is present. -/
theorem lookup_isSome_iff (m : List (Nat × Int)) (k : Nat) :
    (List.lookup k m).isSome ↔ k ∈ m.map Prod.fst := by
  induction m with
  | nil => simp
  | cons p t ih =>
    rcases p with ⟨k', v'⟩
    by_cases h : k = k'
    · subst h
      simp [List.lookup_cons]
    · have hbe : (k == k') = false := by
        simpa using h
      rw [List.map_cons, List.mem_cons, ← ih]
      simp [List.lookup_cons, hbe, h]

/-- Setting an already-present key preserves the key sequence. -/
theorem keys_mapSet_of_mem (m : List (Nat × Int)) (k : Nat) (v : Int)
    (h : k ∈ m.map Prod.fst) :
    (mapSet m k v).map Prod.fst = m.map Prod.fst := by
  induction m with
  | nil => simp at h
  | cons p t ih =>
    rcases p with ⟨k', v'⟩
    by_cases h' : k' = k
    · simp [mapSet, h']
    · have ht : k ∈ t.map Prod.fst := by
        rw [List.map_cons, List.mem_cons] at h
        rcases h with h0 | h0
        · exact absurd h0.symm h'
        · exact h0
      simp [mapSet, h', ih ht]

/-- Setting a fresh key appends it at the end. -/
theorem mapSet_fresh (m : List (Nat × Int)) (k : Nat) (v : Int)
    (h : k ∉ m.map Prod.fst) :
    mapSet m k v = m ++ [(k, v)] := by
  induction m with
  | nil => rfl
  | cons p t ih =>
    rcases p with ⟨k', v'⟩
    have hk' : k' ≠ k := by
      intro he
      exact h (by simp [he])
    have ht : k ∉ t.map Prod.fst := by
      intro hm
      exact h (by simp [hm])
    simp [mapSet, hk', ih ht]

/-- The initialization loop builds the ascending ramp of the 30 trailing
days, each with amount 0. -/
theorem initBuckets_eq (today : Nat) :
    initBuckets today =
      (List.range 30).map (fun i => (today - 29 + i, (0 : Int))) := by
  have key : ∀ n : Nat,
      (List.range n).foldl (fun m i => mapSet m (today - 29 + i) 0) [] =
        (List.range n).map (fun i => (today - 29 + i, (0 : Int))) := by
    intro n
    induction n with
    | zero => rfl
    | succ n ih =>
      rw [List.range_succ, List.foldl_append, List.map_append, ih]
      have hfresh : (today - 29 + n) ∉
          ((List.range n).map (fun i => (today - 29 + i, (0 : Int)))).map Prod.fst := by
        simp only [List.map_map, List.mem_map, List.mem_range, Function.comp]
        rintro ⟨i, hi, hei⟩
        simp at hei
        omega
      simp [mapSet_fresh _ _ _ hfresh]
  exact key 30

/-- Lookup in an ascending zero ramp of `n` days starting at `base`. -/
theorem lookup_map_range (d : Nat) :
    ∀ (n base : Nat),
      List.lookup d ((List.range n).map fun i => (base + i, (0 : Int))) =
        if base ≤ d ∧ d < base + n then some 0 else none := by
  intro n
  induction n with
  | zero =>
    intro base
    rw [if_neg (by omega)]
    simp
  | succ n ih =>
    intro base
    rw [List.range_succ_eq_map, List.map_cons, List.map_map]
    have hf : ((fun i => (base + i, (0 : Int))) ∘ Nat.succ) =
        fun i => (base + 1 + i, (0 : Int)) := by
      funext i
      simp only [Function.comp]
      congr 1
      omega
    rw [hf]
    by_cases hd : d = base
    · subst hd
      simp [List.lookup_cons]
    · have hbe : (d == base + 0) = false := by
        simpa using hd
      simp only [List.lookup_cons, hbe]
      rw [ih (base + 1)]
      by_cases hP : base + 1 ≤ d ∧ d < base + 1 + n
      · rw [if_pos hP, if_pos (by omega)]
      · rw [if_neg hP, if_neg (by omega)]

/-- Lookup in the initial buckets: `some 0` inside the trailing 30-day
window, `none` outside it. -/
theorem lookup_initBuckets (today d : Nat) (h29 : 29 ≤ today) :
    List.lookup d (initBuckets today) =
      if today - 29 ≤ d ∧ d ≤ today then some 0 else none := by
  rw [initBuckets_eq, lookup_map_range]
  by_cases hP : today - 29 ≤ d ∧ d < today - 29 + 30
  · rw [if_pos hP, if_pos (by omega)]
  · rw [if_neg hP, if_neg (by omega)]

/-- The key sequence of the initial buckets. -/
theorem keys_initBuckets (today : Nat) :
    (initBuckets today).map Prod.fst =
      (List.range 30).map (fun i => today - 29 + i) := by
  rw [initBuckets_eq, List.map_map]
  rfl

/-- Folding sales whose bucket keys are all present preserves the key
sequence of the map. -/
theorem chartFold_keys (today : Nat) (sales : List Sale) :
    ∀ m : List (Nat × Int),
      (∀ s ∈ sales, ¬ s.sold_at < (today - 29) * 86400 →
        s.sold_at / 86400 ∈ m.map Prod.fst) →
      (sales.foldl (addSale today) m).map Prod.fst = m.map Prod.fst := by
  induction sales with
  | nil =>
    intro m _
    rfl
  | cons s rest ih =>
    intro m hm
    rw [List.foldl_cons]
    by_cases hskip : s.sold_at < (today - 29) * 86400
    · rw [show addSale today m s = m from if_pos hskip]
      exact ih m (fun s' hs' h' => hm s' (List.mem_cons_of_mem _ hs') h')
    · have hkey : s.sold_at / 86400 ∈ m.map Prod.fst :=
        hm s (List.mem_cons_self _ _) hskip
      have haddkeys : (addSale today m s).map Prod.fst = m.map Prod.fst := by
        rw [show addSale today m s = mapSet m (s.sold_at / 86400)
          ((List.lookup (s.sold_at / 86400) m).getD 0 + s.total_price)
          from if_neg hskip]
        exact keys_mapSet_of_mem _ _ _ hkey
      refine (ih (addSale today m s) ?_).trans haddkeys
      intro s' hs' h'
      rw [haddkeys]
      exact hm s' (List.mem_cons_of_mem _ hs') h'

/-- A key absent from the map and never targeted by an accumulated sale stays
absent through the fold. -/
theorem chartFold_lookup_none (today : Nat) (sales : List Sale) :
    ∀ (m : List (Nat × Int)) (d : Nat),
      (∀ s ∈ sales, ¬ s.sold_at < (today - 29) * 86400 →
        s.sold_at / 86400 ≠ d) →
      List.lookup d m = none →
      List.lookup d (sales.foldl (addSale today) m) = none := by
  induction sales with
  | nil =>
    intro m d _ hd
    exact hd
  | cons s rest ih =>
    intro m d hne hd
    rw [List.foldl_cons]
    by_cases hskip : s.sold_at < (today - 29) * 86400
    · rw [show addSale today m s = m from if_pos hskip]
      exact ih m d (fun s' hs' h' => hne s' (List.mem_cons_of_mem _ hs') h') hd
    · have hk : s.sold_at / 86400 ≠ d := hne s (List.mem_cons_self _ _) hskip
      refine ih (addSale today m s) d
        (fun s' hs' h' => hne s' (List.mem_cons_of_mem _ hs') h') ?_
      rw [show addSale today m s = mapSet m (s.sold_at / 86400)
        ((List.lookup (s.sold_at / 86400) m).getD 0 + s.total_price)
        from if_neg hskip]
      rw [lookup_mapSet_ne _ _ _ _ (Ne.symm hk)]
      exact hd

/-- A bucket present in the map ends the fold holding its initial value plus
the totals of the non-skipped sales whose calendar day hits it. -/
theorem chartFold_lookup_some (today : Nat) (sales : List Sale) :
    ∀ (m : List (Nat × Int)) (d : Nat) (v : Int),
      (∀ s ∈ sales, ¬ s.sold_at < (today - 29) * 86400 →
        s.sold_at / 86400 ∈ m.map Prod.fst) →
      List.lookup d m = some v →
      List.lookup d (sales.foldl (addSale today) m) =
        some (v + ((sales.filter (fun s =>
          decide (¬ s.sold_at < (today - 29) * 86400 ∧ s.sold_at / 86400 = d))).map
            (·.total_price)).sum) := by
  induction sales with
  | nil =>
    intro m d v _ hd
    simpa using hd
  | cons s rest ih =>
    intro m d v hm hd
    rw [List.foldl_cons]
    by_cases hskip : s.sold_at < (today - 29) * 86400
    · rw [show addSale today m s = m from if_pos hskip]
      rw [show (s :: rest).filter (fun s =>
          decide (¬ s.sold_at < (today - 29) * 86400 ∧ s.sold_at / 86400 = d)) =
        rest.filter (fun s =>
          decide (¬ s.sold_at < (today - 29) * 86400 ∧ s.sold_at / 86400 = d))
        from List.filter_cons_of_neg (by simp [hskip])]
      exact ih m d v (fun s' hs' h' => hm s' (List.mem_cons_of_mem _ hs') h') hd
    · have hadd : addSale today m s = mapSet m (s.sold_at / 86400)
          ((List.lookup (s.sold_at / 86400) m).getD 0 + s.total_price) :=
        if_neg hskip
      have hm' : ∀ s' ∈ rest, ¬ s'.sold_at < (today - 29) * 86400 →
          s'.sold_at / 86400 ∈ (addSale today m s).map Prod.fst := by
        intro s' hs' h'
        rw [hadd, keys_mapSet_of_mem _ _ _ (hm s (List.mem_cons_self _ _) hskip)]
        exact hm s' (List.mem_cons_of_mem _ hs') h'
      by_cases hday : s.sold_at / 86400 = d
      · rw [show (s :: rest).filter (fun s =>
            decide (¬ s.sold_at < (today - 29) * 86400 ∧ s.sold_at / 86400 = d)) =
          s :: rest.filter (fun s =>
            decide (¬ s.sold_at < (today - 29) * 86400 ∧ s.sold_at / 86400 = d))
          from List.filter_cons_of_pos (by simp [hskip, hday])]
        have hlook : List.lookup d (addSale today m s) = some (v + s.total_price) := by
          rw [hadd, hday]
          rw [lookup_mapSet_self]
          rw [hd]
          rfl
        have := ih (addSale today m s) d (v + s.total_price) hm' hlook
        rw [this]
        congr 1
        simp
        ring
      · rw [show (s :: rest).filter (fun s =>
            decide (¬ s.sold_at < (today - 29) * 86400 ∧ s.sold_at / 86400 = d)) =
          rest.filter (fun s =>
            decide (¬ s.sold_at < (today - 29) * 86400 ∧ s.sold_at / 86400 = d))
          from List.filter_cons_of_neg (by simp [hskip, hday])]
        refine ih (addSale today m s) d v hm' ?_
        rw [hadd, lookup_mapSet_ne _ _ _ _ (fun he => hday he.symm)]
        exact hd

/-- A sale dated on the calendar day after `today` (claim C3 says any
timestamp is tolerated without affecting the number of entries). -/
def futureSale : Sale :=
  { paidSale with sold_at := 19001 * 86400 }

/-- C3 fails as stated: `chartData` only guards the lower window boundary
(`soldDate < start`), so a sale dated after today inserts a fresh 31st map
entry instead of being ignored — with `today = 19000` and one sale dated on
day 19001 the series no longer has 30 entries. -/
theorem chartData_counts_future_day :
    (chartData 19000 [futureSale]).length ≠ 30 := by
  decide

/-- C3 amended: provided no sale is dated after today (the counterexample's
future-dated sale is the only violation the code admits), the daily series
has exactly 30 entries, one per trailing calendar day ending today in
strictly ascending date order; each in-window day's bucket holds exactly the
sum of `total_price` over the sales of that calendar day (so window sales are
accumulated and pre-window sales are ignored), and no bucket exists for any
out-of-window day. -/
theorem chartData_window (today : Nat) (sales : List Sale) (h29 : 29 ≤ today)
    (hfut : ∀ s ∈ sales, s.sold_at / 86400 ≤ today) :
    (chartData today sales).length = 30 ∧
    List.Pairwise (· < ·) ((chartData today sales).map Prod.fst) ∧
    (∀ d, today - 29 ≤ d → d ≤ today →
      List.lookup d (chartData today sales) =
        some (((sales.filter (fun s => decide (s.sold_at / 86400 = d))).map
          (·.total_price)).sum)) ∧
    (∀ d, d < today - 29 ∨ today < d →
      List.lookup d (chartData today sales) = none) := by
  have hm : ∀ s ∈ sales, ¬ s.sold_at < (today - 29) * 86400 →
      s.sold_at / 86400 ∈ (initBuckets today).map Prod.fst := by
    intro s hs hskip
    have hlow : (today - 29) * 86400 ≤ s.sold_at := Nat.le_of_not_lt hskip
    have hdlow : today - 29 ≤ s.sold_at / 86400 :=
      (Nat.le_div_iff_mul_le (by norm_num)).mpr hlow
    have hdhigh : s.sold_at / 86400 ≤ today := hfut s hs
    rw [keys_initBuckets]
    simp only [List.mem_map, List.mem_range]
    exact ⟨s.sold_at / 86400 - (today - 29), by omega, by omega⟩
  have hkeys : (chartData today sales).map Prod.fst =
      (initBuckets today).map Prod.fst := by
    unfold chartData
    exact chartFold_keys today sales (initBuckets today) hm
  refine ⟨?_, ?_, ?_, ?_⟩
  · have h1 : (chartData today sales).length =
        ((chartData today sales).map Prod.fst).length :=
      (List.length_map _ _).symm
    rw [h1, hkeys, keys_initBuckets]
    simp
  · rw [hkeys, keys_initBuckets]
    exact List.Pairwise.map _ (fun a b hab => by omega)
      (List.pairwise_lt_range 30)
  · intro d hd1 hd2
    have h0 : List.lookup d (initBuckets today) = some 0 := by
      rw [lookup_initBuckets today d h29, if_pos ⟨hd1, hd2⟩]
    have hfold := chartFold_lookup_some today sales (initBuckets today) d 0 hm h0
    have hfc : ∀ s ∈ sales,
        (decide (¬ s.sold_at < (today - 29) * 86400 ∧ s.sold_at / 86400 = d)) =
          decide (s.sold_at / 86400 = d) := by
      intro s _
      by_cases hday : s.sold_at / 86400 = d
      · have hd86 : d * 86400 ≤ s.sold_at := by
          have hds := Nat.div_mul_le_self s.sold_at 86400
          rw [hday] at hds
          exact hds
        have hmul : (today - 29) * 86400 ≤ d * 86400 :=
          Nat.mul_le_mul_right _ hd1
        have hskip : ¬ s.sold_at < (today - 29) * 86400 := by omega
        simp [hday, hskip]
      · simp [hday]
    unfold chartData
    rw [hfold, List.filter_congr hfc]
    simp
  · intro d hdout
    have h0 : List.lookup d (initBuckets today) = none := by
      rw [lookup_initBuckets today d h29, if_neg (by omega)]
    unfold chartData
    refine chartFold_lookup_none today sales (initBuckets today) d ?_ h0
    intro s hs hskip
    have hlow : (today - 29) * 86400 ≤ s.sold_at := Nat.le_of_not_lt hskip
    have hdlow : today - 29 ≤ s.sold_at / 86400 :=
      (Nat.le_div_iff_mul_le (by norm_num)).mpr hlow
    have hdhigh : s.sold_at / 86400 ≤ today := hfut s hs
    omega

/-- Closed instance of `chartData_window`: one past-dated sale, 30 entries. -/
theorem chartData_window_check :
    29 ≤ 19000 ∧ (chartData 19000 [paidSale]).length = 30 :=
  ⟨by norm_num,
    (chartData_window 19000 [paidSale] (by norm_num) (by decide)).1⟩

end Kikstshop
